import Mathlib

/-!
Verification of the piamtech-frappe-education portal's client-side logic.

Shallow embedding of the repository's view-model functions:
* `FeesPaymentDialog.vue` — payment-amount validation, form validity, and the
  amount sent to the payment-initiation call;
* `Reports.vue` — filter-option derivation, client-side filtering/sorting,
  the `ordinal` helper and the `loadReports` state transition;
* `IndividualAwards.vue` — filter options and `filteredAwards`;
* the `School Term Result` client script (`populate_skills`);
* `assessment_plan.js` — the `student_group` form handler.

JavaScript numbers are modelled as `ℚ`, strings as `String` (compared by
their character lists, matching the code-unit comparison of the default
`Array.prototype.sort`), nullable values as `Option`, and JS truthiness of
strings/numbers explicitly.  Asynchronous remote calls are modelled by
passing the responses as explicit arguments and recording which lookups the
code issues.
-/

/-- JS truthiness of a nullable string: `null`/`undefined` and `""` are falsy. -/
def jsTruthyStr : Option String → Bool
  | none => false
  | some s => s ≠ ""

/-- JS truthiness of a nullable number: `null`/`undefined` and `0` are falsy. -/
def jsTruthyNum : Option ℚ → Bool
  | none => false
  | some x => x ≠ 0

/-- `[...new Set(l)]`: the distinct elements of `l`, first occurrences kept,
in order of first occurrence.  `seen` accumulates the values already emitted. -/
def jsSetDistinctAux {α : Type} [DecidableEq α] (seen : List α) : List α → List α
  | [] => []
  | a :: l =>
    if a ∈ seen then jsSetDistinctAux seen l
    else a :: jsSetDistinctAux (a :: seen) l

/-- `[...new Set(l)]` with no values seen yet. -/
def jsSetDistinct {α : Type} [DecidableEq α] (l : List α) : List α :=
  jsSetDistinctAux [] l

theorem mem_jsSetDistinctAux {α : Type} [DecidableEq α] (seen : List α)
    (l : List α) (x : α) :
    x ∈ jsSetDistinctAux seen l ↔ x ∈ l ∧ x ∉ seen := by
  induction l generalizing seen with
  | nil => simp [jsSetDistinctAux]
  | cons a l ih =>
    by_cases ha : a ∈ seen
    · simp only [jsSetDistinctAux, if_pos ha, ih, List.mem_cons]
      constructor
      · rintro ⟨hx, hs⟩; exact ⟨Or.inr hx, hs⟩
      · rintro ⟨hx | hx, hs⟩
        · exact absurd (hx ▸ ha) hs
        · exact ⟨hx, hs⟩
    · simp only [jsSetDistinctAux, if_neg ha, List.mem_cons, ih]
      constructor
      · rintro (rfl | ⟨hx, hs⟩)
        · exact ⟨Or.inl rfl, ha⟩
        · exact ⟨Or.inr hx, fun hmem => hs (Or.inr hmem)⟩
      · rintro ⟨rfl | hx, hs⟩
        · exact Or.inl rfl
        · by_cases hxa : x = a
          · exact Or.inl hxa
          · exact Or.inr ⟨hx, fun hmem => hmem.elim hxa hs⟩

theorem mem_jsSetDistinct {α : Type} [DecidableEq α] (l : List α) (x : α) :
    x ∈ jsSetDistinct l ↔ x ∈ l := by
  simp [jsSetDistinct, mem_jsSetDistinctAux]

theorem nodup_jsSetDistinctAux {α : Type} [DecidableEq α] (seen : List α)
    (l : List α) : (jsSetDistinctAux seen l).Nodup := by
  induction l generalizing seen with
  | nil => simp [jsSetDistinctAux]
  | cons a l ih =>
    by_cases ha : a ∈ seen
    · simpa [jsSetDistinctAux, if_pos ha] using ih seen
    · simp only [jsSetDistinctAux, if_neg ha, List.nodup_cons]
      refine ⟨fun hmem => ?_, ih (a :: seen)⟩
      exact ((mem_jsSetDistinctAux _ _ _).mp hmem).2 (List.mem_cons_self a seen)

theorem nodup_jsSetDistinct {α : Type} [DecidableEq α] (l : List α) :
    (jsSetDistinct l).Nodup :=
  nodup_jsSetDistinctAux [] l

/-- The order the default `Array.prototype.sort` comparator induces on
strings: lexicographic comparison of the character sequences. -/
def strLe (a b : String) : Prop := a.data ≤ b.data

instance : DecidableRel strLe := fun a b =>
  inferInstanceAs (Decidable (a.data ≤ b.data))

instance : IsTotal String strLe := ⟨fun a b => le_total a.data b.data⟩

instance : IsTrans String strLe := ⟨fun _ _ _ h h' => le_trans h h'⟩

/-- `l.sort()` on an array of strings with the default comparator. -/
def sortStrings (l : List String) : List String :=
  List.insertionSort strLe l

/-- `[...new Set(l)].sort()`: distinct values, sorted. -/
def distinctSortedValues (l : List String) : List String :=
  sortStrings (jsSetDistinct l)

theorem mem_distinctSortedValues (l : List String) (x : String) :
    x ∈ distinctSortedValues l ↔ x ∈ l := by
  rw [distinctSortedValues, sortStrings, List.mem_insertionSort,
    mem_jsSetDistinct]

theorem nodup_distinctSortedValues (l : List String) :
    (distinctSortedValues l).Nodup :=
  ((List.perm_insertionSort strLe _).nodup_iff).mpr (nodup_jsSetDistinct l)

theorem sorted_distinctSortedValues (l : List String) :
    (distinctSortedValues l).Sorted strLe :=
  List.sorted_insertionSort strLe _

/-! ## FeesPaymentDialog.vue -/

/-- The two literal payment modes of the dialog. -/
inductive PaymentType
  | Full
  | Partial
deriving DecidableEq, Repr

/-- The invoice row passed to the dialog: only the fields the modelled
functions read.  `amount_outstanding_raw` is the result of
`parseFloat(props.row.amount_outstanding_raw)` — `none` when the parse gives
`NaN`. -/
structure InvoiceRow where
  invoice : String
  amount_outstanding_raw : Option ℚ
deriving DecidableEq, Repr

/-- `parseFloat(props.row.amount_outstanding_raw) || 0`: a failed parse and a
parsed `0` both yield `0`. -/
def outstandingOf (row : InvoiceRow) : ℚ :=
  row.amount_outstanding_raw.getD 0

/-- The dialog's per-session reactive state that the modelled functions read:
payment type, entered amount (`null` before entry) and the two contact
fields. -/
structure DialogState where
  paymentType : PaymentType
  paymentAmount : Option ℚ
  email : String
  mobile_number : String
deriving DecidableEq, Repr

/-- `formatCurrency` wraps `Intl.NumberFormat('en-NG', ...).format`; the
exact rendering is owned by the host environment, so it is modelled as a
plain injection of the numeric amount into a string.  No theorem below
depends on the body, only on the argument passed to it. -/
def formatCurrency (amount : ℚ) : String :=
  "₦" ++ toString amount

/-- `validatePaymentAmount`: first clears the error, then rejects a missing
or non-positive amount, then an amount above the outstanding balance.
Returns the validation result together with the error message the function
leaves behind (`""` when it clears the error and returns `true`). -/
def validatePaymentAmount (st : DialogState) (row : InvoiceRow) :
    Bool × String :=
  let outstanding := outstandingOf row
  if ¬ jsTruthyNum st.paymentAmount ∨ st.paymentAmount.getD 0 ≤ 0 then
    (false, "Amount must be greater than zero")
  else if st.paymentAmount.getD 0 > outstanding then
    (false, "Amount cannot exceed outstanding balance (" ++
      formatCurrency outstanding ++ ")")
  else
    (true, "")

/-- `isFormValid`: in Full mode both contact fields must be truthy; in
Partial mode additionally the amount must be truthy, positive and pass
`validatePaymentAmount`. -/
def isFormValid (st : DialogState) (row : InvoiceRow) : Bool :=
  match st.paymentType with
  | .Full => st.email ≠ "" ∧ st.mobile_number ≠ ""
  | .Partial =>
    st.email ≠ "" ∧ st.mobile_number ≠ "" ∧
      jsTruthyNum st.paymentAmount ∧ st.paymentAmount.getD 0 > 0 ∧
      (validatePaymentAmount st row).1

/-- `{ paymentAmount ? formatCurrency(paymentAmount) : ... }` argument of the
partial-payment breakdown: the amount the user is paying. -/
def payingAmount (st : DialogState) : ℚ :=
  st.paymentAmount.getD 0

/-- `getRemainingAfter`: the 'Balance after payment' string shown in the
partial-payment breakdown. -/
def getRemainingAfter (st : DialogState) (row : InvoiceRow) : String :=
  let outstanding := outstandingOf row
  let paying := st.paymentAmount.getD 0
  let remaining := outstanding - paying
  formatCurrency (if remaining > 0 then remaining else 0)

/-- The payload `proceedToPayment` sends to
`piamtech_frappe_education.paystack.initiate_payment`. -/
structure PaymentCall where
  sales_invoice : String
  payment_amount : ℚ
  email : String
deriving DecidableEq, Repr

/-- The `amountToPay` local of `proceedToPayment`: the full outstanding
balance in Full mode, the entered amount in Partial mode. -/
def amountToPay (st : DialogState) (row : InvoiceRow) : ℚ :=
  if st.paymentType = .Full then outstandingOf row else st.paymentAmount.getD 0

/-- `proceedToPayment` up to the remote call: when the form is invalid it
shows a toast and returns without calling; otherwise it issues the
payment-initiation call with `amountToPay`. -/
def proceedToPayment (st : DialogState) (row : InvoiceRow) :
    Option PaymentCall :=
  if isFormValid st row then
    some { sales_invoice := row.invoice, payment_amount := amountToPay st row,
           email := st.email }
  else
    none

/-! ## Reports.vue -/

/-- A report record as consumed by the Reports page: the fields read by the
filter options, filtering and sorting. -/
structure Report where
  academic_year : String
  assessment_group : String
  program : String
deriving DecidableEq, Repr

/-- A dropdown entry: the `label`/`value` pair of the option objects the page
builds (the `onClick` closure only mutates the corresponding filter ref). -/
structure SelectOption where
  label : String
  value : String
deriving DecidableEq, Repr

/-- `academicYearFilterOptions`: 'All Years' followed by the distinct
academic years of the fetched reports, sorted. -/
def academicYearFilterOptions (allReports : List Report) : List SelectOption :=
  let years := distinctSortedValues (allReports.map (·.academic_year))
  { label := "All Years", value := "" } ::
    years.map (fun year => { label := year, value := year })

/-- `termFilterOptions`: 'All Terms' followed by the distinct assessment
groups of the fetched reports, sorted. -/
def termFilterOptions (allReports : List Report) : List SelectOption :=
  let terms := distinctSortedValues (allReports.map (·.assessment_group))
  { label := "All Terms", value := "" } ::
    terms.map (fun term => { label := term, value := term })

/-- `programFilterOptions`: 'All Programs' followed by the distinct truthy
(`.filter(Boolean)`) program values of the fetched reports, sorted. -/
def programFilterOptions (allReports : List Report) : List SelectOption :=
  let programs := distinctSortedValues
    (((allReports.map (·.program)).filter (fun p => p ≠ "")))
  { label := "All Programs", value := "" } ::
    programs.map (fun program => { label := program, value := program })

/-- The comparator of `filteredReports`'s final `.sort`: academic year
descending, then assessment group ascending (`localeCompare` modelled by the
character-list order). -/
def reportsSortLe (a b : Report) : Prop :=
  if a.academic_year ≠ b.academic_year then
    strLe b.academic_year a.academic_year
  else
    strLe a.assessment_group b.assessment_group

instance : DecidableRel reportsSortLe := fun a b => by
  unfold reportsSortLe; infer_instance

/-- `filteredReports`: apply each filter whose selection is truthy, then
sort. -/
def filteredReports (allReports : List Report)
    (filterYear filterTerm filterProgram : String) : List Report :=
  let f0 := allReports
  let f1 := if filterYear ≠ "" then
    f0.filter (fun r => r.academic_year = filterYear) else f0
  let f2 := if filterTerm ≠ "" then
    f1.filter (fun r => r.assessment_group = filterTerm) else f1
  let f3 := if filterProgram ≠ "" then
    f2.filter (fun r => r.program = filterProgram) else f2
  List.insertionSort reportsSortLe f3

/-- The suffix array `s = ["th", "st", "nd", "rd"]` of `ordinal`, as the JS
indexing operation: defined indices `0..3` give a (truthy, non-empty)
string; every other integer index gives `undefined` (`none`). -/
def ordinalSuffixArray (i : ℤ) : Option String :=
  if i = 0 then some "th"
  else if i = 1 then some "st"
  else if i = 2 then some "nd"
  else if i = 3 then some "rd"
  else none

/-- `ordinal`: `n + (s[(v - 20) % 10] || s[v] || s[0])` with `v = n % 100`;
the JS `%` on integers is truncated remainder (`Int.tmod`). -/
def ordinal (n : ℕ) : String :=
  let v : ℤ := (n % 100 : ℕ)
  let fallback := (ordinalSuffixArray v).getD "th"
  toString n ++ ((ordinalSuffixArray (Int.tmod (v - 20) 10)).getD fallback)

/-- The Reports page state touched by `loadReports`: the stored report list,
the two loading flags, and the alert banner (message, type). -/
structure ReportsState where
  allReports : List Report
  isLoading : Bool
  isRefreshing : Bool
  alert : Option (String × String)
deriving DecidableEq, Repr

/-- Outcome of the `apiCall` fetch inside `loadReports`: either a response
whose `message` field is a possibly-missing list, or a thrown error with its
message. -/
inductive FetchReports
  | ok (message : Option (List Report))
  | err (message : String)
deriving DecidableEq, Repr

/-- `loadReports`: sets the loading flags, fetches, stores
`result.message || []` on success; on error shows the alert and resets the
list to `[]`; the `finally` clause clears both flags in every outcome. -/
def loadReports (s : ReportsState) (r : FetchReports) : ReportsState :=
  match r with
  | .ok message =>
    { s with allReports := message.getD [], isLoading := false,
             isRefreshing := false }
  | .err message =>
    { s with alert := some ("Error loading reports: " ++ message, "error"),
             allReports := [], isLoading := false, isRefreshing := false }

/-! ## IndividualAwards.vue -/

/-- An award record as mapped by `loadAwards` from the API response. -/
structure Award where
  name : String
  title : String
  date : String
  description : String
  category : String
  year : String
  file : String
deriving DecidableEq, Repr

/-- `yearOptions`: 'All Years' followed by the distinct years of the fetched
awards, sorted. -/
def yearOptions (allAwards : List Award) : List SelectOption :=
  let years := distinctSortedValues (allAwards.map (·.year))
  { label := "All Years", value := "" } ::
    years.map (fun y => { label := y, value := y })

/-- `categoryOptions`: the static, hard-coded category list of the Awards
page — it does not depend on the fetched records. -/
def categoryOptions : List SelectOption :=
  [ { label := "All Categories", value := "" },
    { label := "Academic", value := "Academic" },
    { label := "Sports", value := "Sports" },
    { label := "Leadership", value := "Leadership" },
    { label := "Behavioural", value := "Behavioural" } ]

/-- `filteredAwards`: an award passes when each truthy filter selection
equals the corresponding field. -/
def filteredAwards (allAwards : List Award)
    (filterYear filterCategory : String) : List Award :=
  allAwards.filter (fun a =>
    (filterYear = "" ∨ a.year = filterYear) ∧
    (filterCategory = "" ∨ a.category = filterCategory))

/-! ## School Term Result client script (`populate_skills`) -/

/-- A row of the School Settings program child tables (`p.program`). -/
structure ProgramRow where
  program : String
deriving DecidableEq, Repr

/-- A row of the School Settings skill child tables (`skill.skill_name`). -/
structure SkillSettingRow where
  skill_name : String
deriving DecidableEq, Repr

/-- The School Settings singleton as read by the script; a missing child
table (`settings[field] || []`) is the empty list. -/
structure SchoolSettings where
  primary_programs : List ProgramRow
  secondary_programs : List ProgramRow
  primary_psychomotor_skills : List SkillSettingRow
  primary_affective_skills : List SkillSettingRow
  secondary_psychomotor_skills : List SkillSettingRow
  secondary_affective_skills : List SkillSettingRow
deriving DecidableEq, Repr

/-- The School Term Result form fields the script reads and the two child
tables it writes; a skill row is represented by its `skill` field. -/
structure TermResultForm where
  student : Option String
  academic_term : Option String
  academic_year : Option String
  assessment_group : Option String
  psychomotor_skills : List String
  affective_skills : List String
deriving DecidableEq, Repr

/-- A remote lookup issued by `populate_skills`, in issue order. -/
inductive SkillLookup
  | programEnrollment (student academic_year : String)
  | schoolSettings
deriving DecidableEq, Repr

/-- The observable outcome of one `populate_skills` run: the final form, the
remote lookups issued (in order) and the `frappe.msgprint` message, if any. -/
structure PopulateOutcome where
  form : TermResultForm
  lookups : List SkillLookup
  message : Option String
deriving DecidableEq, Repr

/-- `populate_skills`, with the two asynchronous responses passed in:
`enrollResp` is the `get_list` result for the Program Enrollment query
(already limited to one page) and `settingsResp` the School Settings
document, `none` when `r.message` is absent.  Returns the final form, the
lookups issued and the message shown. -/
def populate_skills (frm : TermResultForm) (enrollResp : List ProgramRow)
    (settingsResp : Option SchoolSettings) : PopulateOutcome :=
  if ¬ jsTruthyStr frm.assessment_group ∨ ¬ jsTruthyStr frm.student ∨
      ¬ jsTruthyStr frm.academic_year then
    { form := frm, lookups := [], message := none }
  else
    let enrollLookup := SkillLookup.programEnrollment
      (frm.student.getD "") (frm.academic_year.getD "")
    match enrollResp with
    | [] =>
      { form := frm, lookups := [enrollLookup],
        message := some "No Program Enrollment found for this student" }
    | e :: _ =>
      let program := e.program
      match settingsResp with
      | none =>
        { form := frm, lookups := [enrollLookup, SkillLookup.schoolSettings],
          message := some "Could not fetch School Settings" }
      | some settings =>
        let primary_programs := settings.primary_programs.map (·.program)
        let secondary_programs := settings.secondary_programs.map (·.program)
        if program ∈ primary_programs then
          let psycho := settings.primary_psychomotor_skills
          let affect := settings.primary_affective_skills
          { form := { frm with
              psychomotor_skills := psycho.map (·.skill_name),
              affective_skills := affect.map (·.skill_name) },
            lookups := [enrollLookup, SkillLookup.schoolSettings],
            message := some ("✓ Skills populated for Primary School (" ++
              program ++ ") - " ++
              toString (psycho.length + affect.length) ++ " skills added") }
        else if program ∈ secondary_programs then
          let psycho := settings.secondary_psychomotor_skills
          let affect := settings.secondary_affective_skills
          { form := { frm with
              psychomotor_skills := psycho.map (·.skill_name),
              affective_skills := affect.map (·.skill_name) },
            lookups := [enrollLookup, SkillLookup.schoolSettings],
            message := some ("✓ Skills populated for Secondary School (" ++
              program ++ ") - " ++
              toString (psycho.length + affect.length) ++ " skills added") }
        else
          { form := frm,
            lookups := [enrollLookup, SkillLookup.schoolSettings],
            message := some ("✗ Program \"" ++ program ++
              "\" not found in Primary or Secondary School Programs") }

/-! ## assessment_plan.js (`student_group` handler) -/

/-- A row of the policy's `criteria` array. -/
structure PolicyCriteriaRow where
  assessment_criteria : String
  weightage : ℚ
deriving DecidableEq, Repr

/-- The policy object returned by `get_policy_details`. -/
structure AssessmentPolicy where
  max_assessment_score : ℚ
  criteria : List PolicyCriteriaRow
deriving DecidableEq, Repr

/-- A row of the form's `assessment_criteria` child table: the two fields
the handler copies. -/
structure AssessmentCriteriaRow where
  assessment_criteria : String
  weightage : ℚ
deriving DecidableEq, Repr

/-- The Assessment Plan form fields the handler touches. -/
structure AssessmentPlanForm where
  student_group : Option String
  maximum_assessment_score : ℚ
  assessment_criteria : List AssessmentCriteriaRow
deriving DecidableEq, Repr

/-- The observable outcome of the `student_group` handler: the final form
and whether the `get_policy_details` call was issued. -/
structure PlanOutcome where
  form : AssessmentPlanForm
  lookupMade : Bool
deriving DecidableEq, Repr

/-- The `student_group` handler of `assessment_plan.js`, with the
`get_policy_details` response passed in (`none` when `r.message` is absent):
when `student_group` is truthy it issues the call and, given a policy, sets
the maximum score and rebuilds the criteria table; otherwise it does
nothing. -/
def studentGroupHandler (frm : AssessmentPlanForm)
    (policyResp : Option AssessmentPolicy) : PlanOutcome :=
  if jsTruthyStr frm.student_group then
    match policyResp with
    | some policy =>
      { form := { frm with
          maximum_assessment_score := policy.max_assessment_score,
          assessment_criteria := policy.criteria.map (fun row =>
            { assessment_criteria := row.assessment_criteria,
              weightage := row.weightage }) },
        lookupMade := true }
    | none => { form := frm, lookupMade := true }
  else
    { form := frm, lookupMade := false }

/-! ## Helper lemmas for the payment dialog -/

theorem append_ne_empty_of_right (s t : String) (h : t.data ≠ []) :
    s ++ t ≠ "" := by
  intro he
  apply h
  have hd := congrArg String.data he
  rw [String.data_append] at hd
  exact (List.append_eq_nil.mp hd).2

theorem validate_none (pt : PaymentType) (em mo : String) (row : InvoiceRow) :
    validatePaymentAmount ⟨pt, none, em, mo⟩ row =
      (false, "Amount must be greater than zero") := by
  unfold validatePaymentAmount
  rw [if_pos]
  exact Or.inl (by simp [jsTruthyNum])

theorem validate_nonpos (pt : PaymentType) (em mo : String) (row : InvoiceRow)
    (a : ℚ) (h : a ≤ 0) :
    validatePaymentAmount ⟨pt, some a, em, mo⟩ row =
      (false, "Amount must be greater than zero") := by
  unfold validatePaymentAmount
  rw [if_pos]
  exact Or.inr (by simpa using h)

theorem validate_exceeds (pt : PaymentType) (em mo : String)
    (row : InvoiceRow) (a : ℚ) (h0 : 0 < a) (h : outstandingOf row < a) :
    validatePaymentAmount ⟨pt, some a, em, mo⟩ row =
      (false, "Amount cannot exceed outstanding balance (" ++
        formatCurrency (outstandingOf row) ++ ")") := by
  unfold validatePaymentAmount
  rw [if_neg, if_pos]
  · simpa using h
  · rintro (h1 | h1)
    · exact h1 (by simp [jsTruthyNum, h0.ne'])
    · exact absurd (by simpa using h1) (not_le.mpr h0)

theorem validate_ok (pt : PaymentType) (em mo : String) (row : InvoiceRow)
    (a : ℚ) (h0 : 0 < a) (h : a ≤ outstandingOf row) :
    validatePaymentAmount ⟨pt, some a, em, mo⟩ row = (true, "") := by
  unfold validatePaymentAmount
  rw [if_neg, if_neg]
  · simpa using not_lt.mpr h
  · rintro (h1 | h1)
    · exact h1 (by simp [jsTruthyNum, h0.ne'])
    · exact absurd (by simpa using h1) (not_le.mpr h0)

/-- Sample invoice row for concrete evaluations: outstanding balance 100. -/
def dialogRowEx : InvoiceRow := ⟨"INV-001", some 100⟩

/-- Sample dialog state in Partial mode with amount 40 entered. -/
def dialogStPartialEx : DialogState :=
  ⟨PaymentType.Partial, some 40, "parent@example.com", "08000000000"⟩

/-- Sample dialog state in Full mode. -/
def dialogStFullEx : DialogState :=
  ⟨PaymentType.Full, none, "parent@example.com", "08000000000"⟩

/-! ## Claim theorems: payment dialog -/

/-- C1: whenever the form is valid, `proceedToPayment` issues the
payment-initiation call with an amount that never exceeds the outstanding
balance — equal to the outstanding balance in Full mode, and equal to the
user-entered (validated) amount in Partial mode. -/
theorem C1_proceed_amount_bounded (st : DialogState) (row : InvoiceRow)
    (h : isFormValid st row = true) :
    proceedToPayment st row =
      some { sales_invoice := row.invoice,
             payment_amount := amountToPay st row, email := st.email } ∧
    amountToPay st row ≤ outstandingOf row ∧
    (st.paymentType = PaymentType.Full →
      amountToPay st row = outstandingOf row) ∧
    (st.paymentType = PaymentType.Partial →
      st.paymentAmount = some (amountToPay st row)) := by
  refine ⟨by rw [proceedToPayment, if_pos (by simp [h])], ?_, ?_, ?_⟩
  · obtain ⟨pt, pa, em, mo⟩ := st
    cases pt with
    | Full => simp [amountToPay]
    | Partial =>
      simp only [isFormValid, decide_eq_true_eq] at h
      obtain ⟨-, -, htr, hpos, hval⟩ := h
      cases pa with
      | none => exact absurd htr (by simp [jsTruthyNum])
      | some a =>
        simp only [Option.getD_some] at hpos
        simp only [amountToPay, Option.getD_some, if_neg (by decide :
          ¬ PaymentType.Partial = PaymentType.Full)]
        by_contra hgt
        push_neg at hgt
        rw [validate_exceeds PaymentType.Partial em mo row a hpos hgt] at hval
        simp at hval
  · intro hfull
    simp [amountToPay, hfull]
  · intro hpart
    obtain ⟨pt, pa, em, mo⟩ := st
    simp only at hpart
    subst hpart
    simp only [isFormValid, decide_eq_true_eq] at h
    obtain ⟨-, -, htr, hpos, hval⟩ := h
    cases pa with
    | none => exact absurd htr (by simp [jsTruthyNum])
    | some a => simp [amountToPay]

/-- C1 witness: a concrete valid Partial-mode session (amount 40 against an
outstanding balance of 100). -/
theorem C1_proceed_amount_bounded_witness :
    isFormValid dialogStPartialEx dialogRowEx = true ∧
    (proceedToPayment dialogStPartialEx dialogRowEx =
      some { sales_invoice := dialogRowEx.invoice,
             payment_amount := amountToPay dialogStPartialEx dialogRowEx,
             email := dialogStPartialEx.email } ∧
    amountToPay dialogStPartialEx dialogRowEx ≤ outstandingOf dialogRowEx ∧
    (dialogStPartialEx.paymentType = PaymentType.Full →
      amountToPay dialogStPartialEx dialogRowEx = outstandingOf dialogRowEx) ∧
    (dialogStPartialEx.paymentType = PaymentType.Partial →
      dialogStPartialEx.paymentAmount =
        some (amountToPay dialogStPartialEx dialogRowEx))) :=
  ⟨by decide, C1_proceed_amount_bounded dialogStPartialEx dialogRowEx
    (by decide)⟩

/-- C2: `validatePaymentAmount` returns `true` exactly when an amount is
entered and `0 < amount ≤ outstanding`; on `true` it clears the error, on
`false` it leaves a non-empty error — the greater-than-zero message when
the amount is missing or non-positive, the exceeds-outstanding message when
a positive amount exceeds the balance. -/
theorem C2_validatePaymentAmount_spec (st : DialogState) (row : InvoiceRow) :
    ((validatePaymentAmount st row).1 = true ↔
      ∃ a, st.paymentAmount = some a ∧ 0 < a ∧ a ≤ outstandingOf row) ∧
    ((validatePaymentAmount st row).1 = true →
      (validatePaymentAmount st row).2 = "") ∧
    ((validatePaymentAmount st row).1 = false →
      (validatePaymentAmount st row).2 ≠ "") ∧
    ((st.paymentAmount = none ∨ st.paymentAmount.getD 0 ≤ 0) →
      (validatePaymentAmount st row).2 = "Amount must be greater than zero") ∧
    (∀ a, st.paymentAmount = some a → 0 < a → outstandingOf row < a →
      (validatePaymentAmount st row).2 =
        "Amount cannot exceed outstanding balance (" ++
          formatCurrency (outstandingOf row) ++ ")") := by
  obtain ⟨pt, pa, em, mo⟩ := st
  cases pa with
  | none =>
    rw [validate_none]
    refine ⟨by simp, by simp, fun _ => by decide, fun _ => rfl, ?_⟩
    rintro a h
    exact absurd h (by simp)
  | some a =>
    rcases le_or_lt a 0 with hnp | hpos
    · rw [validate_nonpos pt em mo row a hnp]
      refine ⟨?_, by simp, fun _ => by decide, fun _ => rfl, ?_⟩
      · simp only [Bool.false_eq_true, false_iff]
        rintro ⟨b, hb, hb0, -⟩
        rw [Option.some_inj] at hb
        exact absurd (hb ▸ hb0) (not_lt.mpr hnp)
      · rintro b hb hb0 -
        rw [Option.some_inj] at hb
        exact absurd (hb ▸ hb0) (not_lt.mpr hnp)
    · rcases le_or_lt a (outstandingOf row) with hle | hgt
      · rw [validate_ok pt em mo row a hpos hle]
        refine ⟨?_, fun _ => rfl, by simp, ?_, ?_⟩
        · simp only [true_iff]
          exact ⟨a, rfl, hpos, hle⟩
        · rintro (h | h)
          · exact absurd h (by simp)
          · exact absurd (by simpa using h) (not_le.mpr hpos)
        · rintro b hb - hb2
          rw [Option.some_inj] at hb
          exact absurd (hb ▸ hb2) (not_lt.mpr hle)
      · rw [validate_exceeds pt em mo row a hpos hgt]
        refine ⟨?_, by simp, ?_, ?_, fun _ _ _ _ => rfl⟩
        · simp only [Bool.false_eq_true, false_iff]
          rintro ⟨b, hb, -, hb1⟩
          rw [Option.some_inj] at hb
          exact absurd (hb ▸ hb1) (not_le.mpr hgt)
        · intro _
          exact append_ne_empty_of_right _ ")" (by decide)
        · rintro (h | h)
          · exact absurd h (by simp)
          · exact absurd (by simpa using h) (not_le.mpr hpos)

/-- C2 witness: amount 40 against outstanding balance 100 validates and
clears the error. -/
theorem C2_validatePaymentAmount_spec_witness :
    (validatePaymentAmount dialogStPartialEx dialogRowEx).1 = true ∧
    (validatePaymentAmount dialogStPartialEx dialogRowEx).2 = "" := by
  have h := C2_validatePaymentAmount_spec dialogStPartialEx dialogRowEx
  have htrue : (validatePaymentAmount dialogStPartialEx dialogRowEx).1 =
      true := h.1.mpr ⟨40, rfl, by decide, by decide⟩
  exact ⟨htrue, h.2.1 htrue⟩

/-- C9: `getRemainingAfter` displays the currency-formatted value of
`max(outstanding − amount, 0)`, hence never a negative amount. -/
theorem C9_getRemainingAfter_nonneg (st : DialogState) (row : InvoiceRow) :
    getRemainingAfter st row =
      formatCurrency (max (outstandingOf row - payingAmount st) 0) ∧
    0 ≤ max (outstandingOf row - payingAmount st) 0 := by
  constructor
  · simp only [getRemainingAfter, payingAmount]
    congr 1
    rcases lt_or_le 0 (outstandingOf row - st.paymentAmount.getD 0) with h | h
    · rw [if_pos h, max_eq_left h.le]
    · rw [if_neg (not_lt.mpr h), max_eq_right h]
  · exact le_max_right _ _

/-! ## Claim theorems: Reports and Awards pages -/

/-- C8: `ordinal` appends the correct English ordinal suffix: 'st' for
numbers ending in 1 except those ending in 11, 'nd' for 2 except 12, 'rd'
for 3 except 13, and 'th' otherwise. -/
theorem C8_ordinal_correct (n : ℕ) : ordinal n = toString n ++
    (if n % 10 = 1 ∧ n % 100 ≠ 11 then "st"
     else if n % 10 = 2 ∧ n % 100 ≠ 12 then "nd"
     else if n % 10 = 3 ∧ n % 100 ≠ 13 then "rd"
     else "th") := by
  have h10 : n % 10 = (n % 100) % 10 :=
    (Nat.mod_mod_of_dvd n (by norm_num)).symm
  have hv : n % 100 < 100 := Nat.mod_lt _ (by norm_num)
  have key : ∀ w : Fin 100,
      ((ordinalSuffixArray (Int.tmod ((w : ℤ) - 20) 10)).getD
        ((ordinalSuffixArray (w : ℤ)).getD "th")) =
      (if (w : ℕ) % 10 = 1 ∧ (w : ℕ) ≠ 11 then "st"
       else if (w : ℕ) % 10 = 2 ∧ (w : ℕ) ≠ 12 then "nd"
       else if (w : ℕ) % 10 = 3 ∧ (w : ℕ) ≠ 13 then "rd"
       else "th") := by decide
  have hkey := key ⟨n % 100, hv⟩
  simp only [ordinal]
  rw [h10]
  exact congrArg (fun s => toString n ++ s) hkey

/-- Sample report record for concrete evaluations. -/
def reportEx : Report := ⟨"2024-2025", "First Term", "JSS 1"⟩

/-- C5 counterexample: with a report already stored, the error path of
`loadReports` replaces the stored list by `[]`, so the previously stored
report list IS mutated by the error path, contrary to the claim. -/
theorem C5_counterexample :
    (loadReports ⟨[reportEx], false, false, none⟩
      (FetchReports.err "Network error")).allReports = [] ∧
    [reportEx] ≠ ([] : List Report) := by
  constructor
  · rfl
  · decide

/-- C5 (amended): on a failing fetch `loadReports` surfaces the error as an
alert and resets the stored report list to `[]` (rather than leaving it
unchanged); in every outcome both loading flags end up false, and on
success the alert is untouched and the list is replaced by the response. -/
theorem C5_loadReports_amended (s : ReportsState) (r : FetchReports) :
    (loadReports s r).isLoading = false ∧
    (loadReports s r).isRefreshing = false ∧
    (∀ m, r = FetchReports.err m →
      (loadReports s r).alert =
        some ("Error loading reports: " ++ m, "error") ∧
      (loadReports s r).allReports = []) ∧
    (∀ msg, r = FetchReports.ok msg →
      (loadReports s r).allReports = msg.getD [] ∧
      (loadReports s r).alert = s.alert) := by
  cases r <;> simp [loadReports]

/-- C5 witness: a concrete failing fetch against a state holding one
report. -/
theorem C5_loadReports_amended_witness :
    (loadReports ⟨[reportEx], false, false, none⟩
      (FetchReports.err "boom")).isLoading = false ∧
    (loadReports ⟨[reportEx], false, false, none⟩
      (FetchReports.err "boom")).isRefreshing = false ∧
    (loadReports ⟨[reportEx], false, false, none⟩
      (FetchReports.err "boom")).alert =
        some ("Error loading reports: " ++ "boom", "error") ∧
    (loadReports ⟨[reportEx], false, false, none⟩
      (FetchReports.err "boom")).allReports = [] := by
  have h := C5_loadReports_amended ⟨[reportEx], false, false, none⟩
    (FetchReports.err "boom")
  exact ⟨h.1, h.2.1, (h.2.2.1 "boom" rfl).1, (h.2.2.1 "boom" rfl).2⟩

/-- C4: the filtered lists contain exactly the records matching every
active (non-empty) filter selection; empty selections exclude nothing.
Holds for `filteredReports` and `filteredAwards`. -/
theorem C4_filtered_membership :
    (∀ (reports : List Report) (fy ft fp : String) (r : Report),
      r ∈ filteredReports reports fy ft fp ↔
        r ∈ reports ∧ (fy = "" ∨ r.academic_year = fy) ∧
          (ft = "" ∨ r.assessment_group = ft) ∧
          (fp = "" ∨ r.program = fp)) ∧
    (∀ (awards : List Award) (fy fc : String) (a : Award),
      a ∈ filteredAwards awards fy fc ↔
        a ∈ awards ∧ (fy = "" ∨ a.year = fy) ∧
          (fc = "" ∨ a.category = fc)) := by
  constructor
  · intro reports fy ft fp r
    simp only [filteredReports, List.mem_insertionSort]
    by_cases hy : fy = "" <;> by_cases ht : ft = "" <;>
      by_cases hp : fp = "" <;>
      simp [hy, ht, hp, List.mem_filter] <;> try tauto
  · intro awards fy fc a
    simp only [filteredAwards, List.mem_filter, decide_eq_true_eq]
    try tauto

/-- C4 witness: the sample report passes with all filters empty. -/
theorem C4_filtered_membership_witness :
    reportEx ∈ filteredReports [reportEx] "" "" "" :=
  (C4_filtered_membership.1 [reportEx] "" "" "" reportEx).mpr
    ⟨by decide, Or.inl rfl, Or.inl rfl, Or.inl rfl⟩

/-- What "derived by distinct-value extraction" states for a filter's option
list: one 'All' head option with empty value, and a tail whose values are
exactly the distinct values drawn from `values`, without duplicates,
sorted, each option labelled by its value. -/
def derivedOptionsSpec (options : List SelectOption) (allLabel : String)
    (values : List String) : Prop :=
  options.head? = some ⟨allLabel, ""⟩ ∧
  (options.tail.map (·.value)).Nodup ∧
  (options.tail.map (·.value)).Sorted strLe ∧
  (∀ v, v ∈ options.tail.map (·.value) ↔ v ∈ values) ∧
  (∀ o ∈ options.tail, o.label = o.value)

theorem derivedOptionsSpec_cons (allLabel : String) (vals : List String) :
    derivedOptionsSpec
      ((⟨allLabel, ""⟩ : SelectOption) ::
        (distinctSortedValues vals).map (fun v => ⟨v, v⟩))
      allLabel vals := by
  have hmap : ((distinctSortedValues vals).map
      (fun v => (⟨v, v⟩ : SelectOption))).map (·.value) =
      distinctSortedValues vals := by
    rw [List.map_map]
    have hcomp : ((fun o : SelectOption => o.value) ∘
        fun v => ({ label := v, value := v } : SelectOption)) = id := rfl
    rw [hcomp, List.map_id]
  refine ⟨rfl, ?_, ?_, ?_, ?_⟩
  · rw [List.tail_cons, hmap]
    exact nodup_distinctSortedValues vals
  · rw [List.tail_cons, hmap]
    exact sorted_distinctSortedValues vals
  · intro v
    rw [List.tail_cons, hmap]
    exact mem_distinctSortedValues vals v
  · intro o ho
    rw [List.tail_cons] at ho
    obtain ⟨v, -, rfl⟩ := List.mem_map.mp ho
    rfl

/-- Sample report with a falsy (empty) program field. -/
def reportBlankProgram : Report := ⟨"2024-2025", "First Term", ""⟩

/-- C3 counterexample: the Awards category filter's options are NOT derived
from the fetched records — with no awards fetched its tail still lists
'Academic' etc.; and the Reports program filter drops the empty-string
program value present in the records. -/
theorem C3_counterexample :
    (¬ ∀ o ∈ categoryOptions.tail,
      o.value ∈ ([] : List Award).map (·.category)) ∧
    (¬ ∀ v ∈ ([reportBlankProgram] : List Report).map (·.program),
      v ∈ (programFilterOptions [reportBlankProgram]).tail.map
        (·.value)) := by
  constructor
  · decide
  · decide

/-- C3 (amended): the distinct-value-extraction property holds for the
Reports page's year and term filters and the Awards page's year filter; the
Reports class (program) filter extracts distinct values of the truthy
(non-empty) program values only; and the Awards category filter is a fixed
static option list independent of the fetched records. -/
theorem C3_filter_options_amended (reports : List Report)
    (awards : List Award) :
    derivedOptionsSpec (academicYearFilterOptions reports) "All Years"
      (reports.map (·.academic_year)) ∧
    derivedOptionsSpec (termFilterOptions reports) "All Terms"
      (reports.map (·.assessment_group)) ∧
    derivedOptionsSpec (programFilterOptions reports) "All Programs"
      ((reports.map (·.program)).filter (fun p => p ≠ "")) ∧
    derivedOptionsSpec (yearOptions awards) "All Years"
      (awards.map (·.year)) ∧
    categoryOptions =
      [⟨"All Categories", ""⟩, ⟨"Academic", "Academic"⟩,
       ⟨"Sports", "Sports"⟩, ⟨"Leadership", "Leadership"⟩,
       ⟨"Behavioural", "Behavioural"⟩] :=
  ⟨derivedOptionsSpec_cons "All Years" _,
   derivedOptionsSpec_cons "All Terms" _,
   derivedOptionsSpec_cons "All Programs" _,
   derivedOptionsSpec_cons "All Years" _,
   rfl⟩

/-- C3 witness: concrete option lists for a one-report, one-award fetch. -/
theorem C3_filter_options_amended_witness :
    derivedOptionsSpec (academicYearFilterOptions [reportEx]) "All Years"
      ([reportEx].map (·.academic_year)) ∧
    categoryOptions =
      [⟨"All Categories", ""⟩, ⟨"Academic", "Academic"⟩,
       ⟨"Sports", "Sports"⟩, ⟨"Leadership", "Leadership"⟩,
       ⟨"Behavioural", "Behavioural"⟩] :=
  ⟨(C3_filter_options_amended [reportEx] []).1,
   (C3_filter_options_amended [reportEx] []).2.2.2.2⟩

/-! ## Helper lemmas: `populate_skills` computation -/

theorem populate_skills_fields_missing (frm : TermResultForm)
    (enrollResp : List ProgramRow) (settingsResp : Option SchoolSettings)
    (h : ¬ jsTruthyStr frm.assessment_group = true ∨
      ¬ jsTruthyStr frm.student = true ∨
      ¬ jsTruthyStr frm.academic_year = true) :
    populate_skills frm enrollResp settingsResp = ⟨frm, [], none⟩ := by
  unfold populate_skills
  rw [if_pos]
  exact h

theorem populate_skills_no_enroll (frm : TermResultForm)
    (settingsResp : Option SchoolSettings)
    (h1 : jsTruthyStr frm.assessment_group = true)
    (h2 : jsTruthyStr frm.student = true)
    (h3 : jsTruthyStr frm.academic_year = true) :
    populate_skills frm [] settingsResp =
      ⟨frm, [SkillLookup.programEnrollment (frm.student.getD "")
        (frm.academic_year.getD "")],
       some "No Program Enrollment found for this student"⟩ := by
  simp [populate_skills, h1, h2, h3]

theorem populate_skills_no_settings (frm : TermResultForm)
    (e : ProgramRow) (rest : List ProgramRow)
    (h1 : jsTruthyStr frm.assessment_group = true)
    (h2 : jsTruthyStr frm.student = true)
    (h3 : jsTruthyStr frm.academic_year = true) :
    populate_skills frm (e :: rest) none =
      ⟨frm, [SkillLookup.programEnrollment (frm.student.getD "")
        (frm.academic_year.getD ""), SkillLookup.schoolSettings],
       some "Could not fetch School Settings"⟩ := by
  simp [populate_skills, h1, h2, h3]

theorem populate_skills_primary (frm : TermResultForm)
    (e : ProgramRow) (rest : List ProgramRow) (s : SchoolSettings)
    (h1 : jsTruthyStr frm.assessment_group = true)
    (h2 : jsTruthyStr frm.student = true)
    (h3 : jsTruthyStr frm.academic_year = true)
    (hp : e.program ∈ s.primary_programs.map (·.program)) :
    populate_skills frm (e :: rest) (some s) =
      ⟨{ frm with
          psychomotor_skills :=
            s.primary_psychomotor_skills.map (·.skill_name),
          affective_skills :=
            s.primary_affective_skills.map (·.skill_name) },
       [SkillLookup.programEnrollment (frm.student.getD "")
         (frm.academic_year.getD ""), SkillLookup.schoolSettings],
       some ("✓ Skills populated for Primary School (" ++ e.program ++
         ") - " ++ toString (s.primary_psychomotor_skills.length +
           s.primary_affective_skills.length) ++ " skills added")⟩ := by
  simp [populate_skills, h1, h2, h3, hp]

theorem populate_skills_secondary (frm : TermResultForm)
    (e : ProgramRow) (rest : List ProgramRow) (s : SchoolSettings)
    (h1 : jsTruthyStr frm.assessment_group = true)
    (h2 : jsTruthyStr frm.student = true)
    (h3 : jsTruthyStr frm.academic_year = true)
    (hp : e.program ∉ s.primary_programs.map (·.program))
    (hs : e.program ∈ s.secondary_programs.map (·.program)) :
    populate_skills frm (e :: rest) (some s) =
      ⟨{ frm with
          psychomotor_skills :=
            s.secondary_psychomotor_skills.map (·.skill_name),
          affective_skills :=
            s.secondary_affective_skills.map (·.skill_name) },
       [SkillLookup.programEnrollment (frm.student.getD "")
         (frm.academic_year.getD ""), SkillLookup.schoolSettings],
       some ("✓ Skills populated for Secondary School (" ++ e.program ++
         ") - " ++ toString (s.secondary_psychomotor_skills.length +
           s.secondary_affective_skills.length) ++ " skills added")⟩ := by
  simp [populate_skills, h1, h2, h3, hp, hs]

theorem populate_skills_neither (frm : TermResultForm)
    (e : ProgramRow) (rest : List ProgramRow) (s : SchoolSettings)
    (h1 : jsTruthyStr frm.assessment_group = true)
    (h2 : jsTruthyStr frm.student = true)
    (h3 : jsTruthyStr frm.academic_year = true)
    (hp : e.program ∉ s.primary_programs.map (·.program))
    (hs : e.program ∉ s.secondary_programs.map (·.program)) :
    populate_skills frm (e :: rest) (some s) =
      ⟨frm,
       [SkillLookup.programEnrollment (frm.student.getD "")
         (frm.academic_year.getD ""), SkillLookup.schoolSettings],
       some ("✗ Program \"" ++ e.program ++
         "\" not found in Primary or Secondary School Programs")⟩ := by
  simp [populate_skills, h1, h2, h3, hp, hs]

/-- Sample School Term Result form with all required fields filled and both
skill tables empty. -/
def termFormEx : TermResultForm :=
  ⟨some "STU-001", some "First Term", some "2024-2025", some "AG-2024-T1",
   [], []⟩

/-- Sample School Settings: one primary program with one skill per table,
one secondary program with one skill per table. -/
def settingsEx : SchoolSettings :=
  ⟨[⟨"Primary 1"⟩], [⟨"JSS 1"⟩], [⟨"Neatness"⟩], [⟨"Punctuality"⟩],
   [⟨"Handwriting"⟩], [⟨"Attentiveness"⟩]⟩

/-! ## Claim theorems: School Term Result and Assessment Plan scripts -/

/-- C6 counterexample: with all three fields set but no Program Enrollment
returned, `populate_skills` issues only ONE remote lookup, not the claimed
exactly two. -/
theorem C6_counterexample :
    (populate_skills termFormEx [] (some settingsEx)).lookups =
      [SkillLookup.programEnrollment "STU-001" "2024-2025"] ∧
    (populate_skills termFormEx [] (some settingsEx)).lookups.length ≠ 2 := by
  constructor
  · decide
  · decide

/-- C6 (amended): with student, academic_year and assessment_group all set,
`populate_skills` issues the Program Enrollment lookup and, exactly when it
returns a result, the School Settings lookup as the second of the two —
whatever the settings fetch then yields — and only one lookup when no
enrollment is found; when the program appears in the settings' primary
programs list — or, failing that, the secondary list — the two skill
tables are replaced with exactly one row per configured skill, each row's
skill copied from the setting's `skill_name`. -/
theorem C6_populate_skills_amended (frm : TermResultForm)
    (enrollResp : List ProgramRow) (settingsResp : Option SchoolSettings)
    (h1 : jsTruthyStr frm.assessment_group = true)
    (h2 : jsTruthyStr frm.student = true)
    (h3 : jsTruthyStr frm.academic_year = true) :
    (enrollResp = [] →
      (populate_skills frm enrollResp settingsResp).lookups =
        [SkillLookup.programEnrollment (frm.student.getD "")
          (frm.academic_year.getD "")]) ∧
    (∀ e rest, enrollResp = e :: rest →
      (populate_skills frm enrollResp settingsResp).lookups =
        [SkillLookup.programEnrollment (frm.student.getD "")
          (frm.academic_year.getD ""), SkillLookup.schoolSettings]) ∧
    (∀ e rest s, enrollResp = e :: rest → settingsResp = some s →
      (populate_skills frm enrollResp settingsResp).lookups =
        [SkillLookup.programEnrollment (frm.student.getD "")
          (frm.academic_year.getD ""), SkillLookup.schoolSettings] ∧
      (e.program ∈ s.primary_programs.map (·.program) →
        (populate_skills frm enrollResp settingsResp).form =
          { frm with
            psychomotor_skills :=
              s.primary_psychomotor_skills.map (·.skill_name),
            affective_skills :=
              s.primary_affective_skills.map (·.skill_name) }) ∧
      (e.program ∉ s.primary_programs.map (·.program) →
        e.program ∈ s.secondary_programs.map (·.program) →
        (populate_skills frm enrollResp settingsResp).form =
          { frm with
            psychomotor_skills :=
              s.secondary_psychomotor_skills.map (·.skill_name),
            affective_skills :=
              s.secondary_affective_skills.map (·.skill_name) })) := by
  refine ⟨?_, ?_, ?_⟩
  · rintro rfl
    rw [populate_skills_no_enroll frm settingsResp h1 h2 h3]
  · rintro e rest rfl
    cases settingsResp with
    | none =>
      rw [populate_skills_no_settings frm e rest h1 h2 h3]
    | some s =>
      by_cases hp : e.program ∈ s.primary_programs.map (·.program)
      · rw [populate_skills_primary frm e rest s h1 h2 h3 hp]
      · by_cases hs2 : e.program ∈ s.secondary_programs.map (·.program)
        · rw [populate_skills_secondary frm e rest s h1 h2 h3 hp hs2]
        · rw [populate_skills_neither frm e rest s h1 h2 h3 hp hs2]
  · rintro e rest s rfl rfl
    by_cases hp : e.program ∈ s.primary_programs.map (·.program)
    · rw [populate_skills_primary frm e rest s h1 h2 h3 hp]
      exact ⟨rfl, fun _ => rfl, fun hnp _ => absurd hp hnp⟩
    · by_cases hs2 : e.program ∈ s.secondary_programs.map (·.program)
      · rw [populate_skills_secondary frm e rest s h1 h2 h3 hp hs2]
        exact ⟨rfl, fun hmem => absurd hmem hp, fun _ _ => rfl⟩
      · rw [populate_skills_neither frm e rest s h1 h2 h3 hp hs2]
        exact ⟨rfl, fun hmem => absurd hmem hp,
          fun _ hmem => absurd hmem hs2⟩

/-- C6 witness: a concrete primary-program population run. -/
theorem C6_populate_skills_amended_witness :
    (populate_skills termFormEx [⟨"Primary 1"⟩] (some settingsEx)).lookups =
      [SkillLookup.programEnrollment "STU-001" "2024-2025",
       SkillLookup.schoolSettings] ∧
    (populate_skills termFormEx [⟨"Primary 1"⟩]
      (some settingsEx)).form.psychomotor_skills = ["Neatness"] ∧
    (populate_skills termFormEx [⟨"Primary 1"⟩]
      (some settingsEx)).form.affective_skills = ["Punctuality"] := by
  have h := C6_populate_skills_amended termFormEx [⟨"Primary 1"⟩]
    (some settingsEx) (by decide) (by decide) (by decide)
  obtain ⟨-, htwo, h2⟩ := h
  have hl := htwo ⟨"Primary 1"⟩ [] rfl
  obtain ⟨-, hprim, -⟩ := h2 ⟨"Primary 1"⟩ [] settingsEx rfl rfl
  have hform := hprim (by decide)
  refine ⟨hl, ?_, ?_⟩ <;> rw [hform] <;> rfl

/-- C10: `populate_skills` leaves the form untouched in every case where
population cannot proceed — missing fields (no lookup, no message), no
enrollment, no settings, or a program in neither list (message only). -/
theorem C10_populate_skills_frame (frm : TermResultForm)
    (enrollResp : List ProgramRow) (settingsResp : Option SchoolSettings) :
    ((¬ jsTruthyStr frm.assessment_group = true ∨
      ¬ jsTruthyStr frm.student = true ∨
      ¬ jsTruthyStr frm.academic_year = true) →
      populate_skills frm enrollResp settingsResp = ⟨frm, [], none⟩) ∧
    (jsTruthyStr frm.assessment_group = true →
      jsTruthyStr frm.student = true →
      jsTruthyStr frm.academic_year = true →
      (enrollResp = [] →
        (populate_skills frm enrollResp settingsResp).form = frm ∧
        (populate_skills frm enrollResp settingsResp).message.isSome =
          true) ∧
      (∀ e rest, enrollResp = e :: rest → settingsResp = none →
        (populate_skills frm enrollResp settingsResp).form = frm ∧
        (populate_skills frm enrollResp settingsResp).message.isSome =
          true) ∧
      (∀ e rest s, enrollResp = e :: rest → settingsResp = some s →
        e.program ∉ s.primary_programs.map (·.program) →
        e.program ∉ s.secondary_programs.map (·.program) →
        (populate_skills frm enrollResp settingsResp).form = frm ∧
        (populate_skills frm enrollResp settingsResp).message.isSome =
          true)) := by
  constructor
  · intro h
    exact populate_skills_fields_missing frm enrollResp settingsResp h
  · intro h1 h2 h3
    refine ⟨?_, ?_, ?_⟩
    · rintro rfl
      rw [populate_skills_no_enroll frm settingsResp h1 h2 h3]
      exact ⟨rfl, rfl⟩
    · rintro e rest rfl rfl
      rw [populate_skills_no_settings frm e rest h1 h2 h3]
      exact ⟨rfl, rfl⟩
    · rintro e rest s rfl rfl hp hs
      rw [populate_skills_neither frm e rest s h1 h2 h3 hp hs]
      exact ⟨rfl, rfl⟩

/-- C10 witness: a program in neither list leaves the form unchanged with a
message shown. -/
theorem C10_populate_skills_frame_witness :
    (populate_skills termFormEx [⟨"Nursery 1"⟩] (some settingsEx)).form =
      termFormEx ∧
    (populate_skills termFormEx [⟨"Nursery 1"⟩]
      (some settingsEx)).message.isSome = true := by
  have h := C10_populate_skills_frame termFormEx [⟨"Nursery 1"⟩]
    (some settingsEx)
  exact (h.2 (by decide) (by decide) (by decide)).2.2 ⟨"Nursery 1"⟩ []
    settingsEx rfl rfl (by decide) (by decide)

/-- Sample Assessment Plan form with a student group selected. -/
def planFormEx : AssessmentPlanForm := ⟨some "SG-A", 0, []⟩

/-- Sample assessment policy: max score 100, two criteria. -/
def policyEx : AssessmentPolicy := ⟨100, [⟨"Homework", 20⟩, ⟨"Exam", 80⟩]⟩

/-- C7: with a student group set and a policy returned, the handler sets
the maximum assessment score and rebuilds the criteria table with exactly
one row per policy entry (copying `assessment_criteria` and `weightage`);
with no student group it makes no lookup and leaves the form unchanged. -/
theorem C7_studentGroupHandler_spec (frm : AssessmentPlanForm)
    (policyResp : Option AssessmentPolicy) :
    (∀ p, jsTruthyStr frm.student_group = true → policyResp = some p →
      studentGroupHandler frm policyResp =
        ⟨{ frm with
            maximum_assessment_score := p.max_assessment_score,
            assessment_criteria := p.criteria.map (fun row =>
              ⟨row.assessment_criteria, row.weightage⟩) }, true⟩) ∧
    (¬ jsTruthyStr frm.student_group = true →
      studentGroupHandler frm policyResp = ⟨frm, false⟩) := by
  constructor
  · rintro p ht rfl
    simp [studentGroupHandler, ht]
  · intro h
    simp [studentGroupHandler, h]

/-- C7 witness: a concrete policy populates the form. -/
theorem C7_studentGroupHandler_spec_witness :
    studentGroupHandler planFormEx (some policyEx) =
      ⟨{ planFormEx with
          maximum_assessment_score := policyEx.max_assessment_score,
          assessment_criteria := policyEx.criteria.map (fun row =>
            ⟨row.assessment_criteria, row.weightage⟩) }, true⟩ :=
  (C7_studentGroupHandler_spec planFormEx (some policyEx)).1 policyEx
    (by decide) rfl
